import Mathlib

/-!
Verification of the ESP32-C3 pressure-gateway signal pipeline.

This file gives a shallow embedding of the pressure-processing firmware:
the signal processor (`pressure_telemetry.cpp`), the sample validator
(`pressure_reader.cpp`), the event-to-JSON formatter
(`message_formatter.cpp`), the event validator (`data_types.cpp`) and the
lifecycle state machine (`system_state.cpp`), together with theorems about
the behaviour of these functions.

Modelling conventions:
* `float` arithmetic is embedded as exact rational arithmetic (`ℚ`);
  the float literals `0.1f`, `0.05f`, `0.8f`, `0.3f` are embedded as the
  rationals they denote in the source text.
* unsigned machine integers are embedded as `ℕ` with explicit reduction
  `% 2^w` at the points where the C code can wrap (`uint64_t` subtraction
  is `uSub64`).
* FreeRTOS queues are abstracted away: an "enqueued" event is an element
  of the list of events the processor hands to `xQueueSend` (drops caused
  by a full queue happen downstream of everything proved here).
-/

set_option maxRecDepth 20000
set_option maxHeartbeats 4000000

namespace PressureGateway

/-- Wrapping subtraction of two `uint64_t` values, as C computes `a - b`
(both operands reduced mod `2^64`). -/
def uSub64 (a b : ℕ) : ℕ := (a + 2 ^ 64 - b % 2 ^ 64) % 2 ^ 64

/-- Two's-complement reinterpretation of a `uint32_t` as `int32_t`,
used by the `(int32_t)` casts in `classifyEvent`. -/
def toInt32 (n : ℕ) : ℤ :=
  if n % 2 ^ 32 < 2 ^ 31 then ((n % 2 ^ 32 : ℕ) : ℤ)
  else ((n % 2 ^ 32 : ℕ) : ℤ) - 2 ^ 32

-- ===================================================================
-- Compile-time constants (signal_parameters.h, production values)
-- ===================================================================

def SENSOR_SAMPLE_RATE_HZ : ℕ := 100

def EPA_ALPHA_PRIMARY : ℚ := 1 / 10

def EPA_ALPHA_SECONDARY : ℚ := 1 / 20

def DERIVATIVE_WINDOW_SIZE : ℕ := 50

def DERIVATIVE_THRESHOLD_PER_SEC : ℚ := 120000

def DERIVATIVE_THRESHOLD : ℚ := DERIVATIVE_THRESHOLD_PER_SEC / SENSOR_SAMPLE_RATE_HZ

def DERIVATIVE_FILTER_ALPHA : ℚ := 1 / 10

def MIN_EVENT_DURATION_MS : ℕ := 50

def EVENT_HYSTERESIS_FACTOR : ℚ := 4 / 5

def MIN_STABLE_DURATION_MS : ℕ := 2000

def MAX_SAMPLES_PER_EVENT : ℕ := 100

def RAW_VALUE_MIN : ℕ := 10000

def RAW_VALUE_MAX : ℕ := 16000000

def MAX_PRESSURE_CHANGE_PER_SECOND : ℚ := 500000

def MAX_CHANGE_PER_SAMPLE : ℚ := MAX_PRESSURE_CHANGE_PER_SECOND / SENSOR_SAMPLE_RATE_HZ

def MAX_CONSECUTIVE_INVALID : ℕ := 20

/-- Modelled from the spec: `MAX_INTERVAL_TIMEOUT_MS` is referenced by
`pressure_telemetry.cpp` but its `#define` is not present in the sources;
the spec lists "max event durations (STABLE and CHANGING, ms)" among the
configuration constants and the production parameter header bounds stable
events at 60000 ms, so the single timeout is modelled as 60000 ms. -/
def MAX_INTERVAL_TIMEOUT_MS : ℕ := 60000

-- ===================================================================
-- Data model (data_types.h)
-- ===================================================================

/-- Event types for pressure events. -/
inductive EventType where
  | stable
  | rising
  | falling
  | oscillation
  deriving DecidableEq, Repr, Inhabited

/-- Trigger reasons for event detection. -/
inductive TriggerReason where
  | derivativeRising
  | derivativeFalling
  | timeout
  | bufferFull
  deriving DecidableEq, Repr, Inhabited

/-- Signal state machine states. -/
inductive SignalState where
  | stable
  | changing
  deriving DecidableEq, Repr, Inhabited

/-- Raw pressure reading (queue 1: pressure_reader → pressure_telemetry). -/
structure PressureReading where
  timestamp : ℕ
  rawValue : ℕ
  isValid : Bool
  deriving DecidableEq, Repr, Inhabited

/-- Processed sample with filtering and derivative info. -/
structure PressureSample where
  timestamp : ℕ
  filteredValue : ℕ
  derivative : ℚ
  deriving DecidableEq, Repr, Inhabited

/-- Complete pressure event (queue 2: pressure_telemetry → message_formatter).
The C `samples` array of `MAX_SAMPLES_PER_EVENT` cells is modelled as a
total function from indices; only indices below `MAX_SAMPLES_PER_EVENT`
are ever written or read. -/
structure PressureEvent where
  startTimestamp : ℕ
  endTimestamp : ℕ
  type : EventType
  startValue : ℕ
  endValue : ℕ
  sampleCount : ℕ
  triggerReason : TriggerReason
  hasDetailedSamples : Bool
  samples : ℕ → PressureSample

/-- Derivative calculation window (circular buffer). -/
structure DerivativeWindow where
  values : ℕ → ℚ
  timestamps : ℕ → ℕ
  writeIndex : ℕ
  count : ℕ
  lastDerivative : ℚ

/-- Signal state machine context. -/
structure SignalStateMachine where
  currentState : SignalState
  stateStartTime : ℕ
  lastEventTime : ℕ
  eventsDetected : ℕ
  transitionPending : Bool
  deriving DecidableEq, Repr, Inhabited

/-- Statistics accumulator for stable periods. -/
structure StableAccumulator where
  minValue : ℕ
  maxValue : ℕ
  sumValues : ℕ
  sampleCount : ℕ
  periodStartTime : ℕ
  deriving DecidableEq, Repr, Inhabited

/-- The zeroed `PressureSample` produced by `memset(..., 0, ...)`. -/
def emptyPressureSample : PressureSample := ⟨0, 0, 0⟩

/-- The zeroed `PressureEvent` produced by `memset(&event, 0, sizeof(...))`
(enum fields become their 0-valued member). -/
def emptyPressureEvent : PressureEvent :=
  { startTimestamp := 0, endTimestamp := 0, type := EventType.stable,
    startValue := 0, endValue := 0, sampleCount := 0,
    triggerReason := TriggerReason.derivativeRising,
    hasDetailedSamples := false, samples := fun _ => emptyPressureSample }

/-- The zeroed `StableAccumulator`. -/
def emptyStableAccumulator : StableAccumulator := ⟨0, 0, 0, 0, 0⟩

/-- The zeroed `DerivativeWindow`. -/
def emptyDerivativeWindow : DerivativeWindow :=
  { values := fun _ => 0, timestamps := fun _ => 0,
    writeIndex := 0, count := 0, lastDerivative := 0 }

-- ===================================================================
-- Signal processing (pressure_telemetry.cpp)
-- ===================================================================

/-- `applyEPAFilter`: one step of the exponential moving-average filter. -/
def applyEPAFilter (newValue prevFiltered alpha : ℚ) : ℚ :=
  alpha * newValue + (1 - alpha) * prevFiltered

/-- `calculateDerivative`: derivative from the sliding window buffer,
computed between the oldest and newest cells currently held. -/
def calculateDerivative (w : DerivativeWindow) : ℚ :=
  if w.count < 2 then 0
  else
    let oldestIndex := (w.writeIndex + DERIVATIVE_WINDOW_SIZE - w.count) % DERIVATIVE_WINDOW_SIZE
    let newestIndex := (w.writeIndex + DERIVATIVE_WINDOW_SIZE - 1) % DERIVATIVE_WINDOW_SIZE
    let valueDiff := w.values newestIndex - w.values oldestIndex
    let timeDiff := uSub64 (w.timestamps newestIndex) (w.timestamps oldestIndex)
    if timeDiff = 0 then 0
    else (valueDiff * 1000) / (timeDiff : ℚ)

/-- `addToDerivativeWindow`: push a sample into the circular buffer. -/
def addToDerivativeWindow (w : DerivativeWindow) (value : ℚ) (timestamp : ℕ) :
    DerivativeWindow :=
  { values := Function.update w.values w.writeIndex value,
    timestamps := Function.update w.timestamps w.writeIndex timestamp,
    writeIndex := (w.writeIndex + 1) % DERIVATIVE_WINDOW_SIZE,
    count := if w.count < DERIVATIVE_WINDOW_SIZE then w.count + 1 else w.count,
    lastDerivative := w.lastDerivative }

/-- Window obtained by pushing a whole list of (value, timestamp) pairs
onto the initial zeroed buffer. -/
def mkWindow (entries : List (ℚ × ℕ)) : DerivativeWindow :=
  entries.foldl (fun w e => addToDerivativeWindow w e.1 e.2) emptyDerivativeWindow

/-- `classifyEvent`: event type from average derivative and net change. -/
def classifyEvent (avgDerivative : ℚ) (startValue endValue : ℕ) : EventType :=
  let pressureChange : ℚ := ((toInt32 endValue - toInt32 startValue : ℤ) : ℚ)
  if |avgDerivative| < DERIVATIVE_THRESHOLD * (3 / 10) then EventType.stable
  else if 0 < pressureChange ∧ 0 < avgDerivative then EventType.rising
  else if pressureChange < 0 ∧ avgDerivative < 0 then EventType.falling
  else EventType.oscillation

/-- `updateSignalStateMachine`: hysteresis state machine step; returns the
new machine and whether the state changed. -/
def updateSignalStateMachine (sm : SignalStateMachine) (currentDerivative : ℚ)
    (currentTime : ℕ) : SignalStateMachine × Bool :=
  match sm.currentState with
  | SignalState.stable =>
      if DERIVATIVE_THRESHOLD < |currentDerivative| then
        ({ currentState := SignalState.changing, stateStartTime := currentTime,
           transitionPending := false, lastEventTime := currentTime,
           eventsDetected := (sm.eventsDetected + 1) % 2 ^ 32 }, true)
      else (sm, false)
  | SignalState.changing =>
      if |currentDerivative| < DERIVATIVE_THRESHOLD * EVENT_HYSTERESIS_FACTOR ∧
          MIN_EVENT_DURATION_MS ≤ uSub64 currentTime sm.stateStartTime then
        ({ currentState := SignalState.stable, stateStartTime := currentTime,
           transitionPending := false, lastEventTime := currentTime,
           eventsDetected := (sm.eventsDetected + 1) % 2 ^ 32 }, true)
      else (sm, false)

/-- `processStablePeriod`: accumulate a sample into the stable-period
statistics; returns the new accumulator and whether to finalize. -/
def processStablePeriod (acc : StableAccumulator) (filteredValue timestamp : ℕ) :
    StableAccumulator × Bool :=
  let a0 := if acc.sampleCount = 0 then
      { minValue := filteredValue, maxValue := filteredValue, sumValues := 0,
        sampleCount := 0, periodStartTime := timestamp }
    else acc
  let a1 : StableAccumulator :=
    { a0 with
      minValue := min a0.minValue filteredValue,
      maxValue := max a0.maxValue filteredValue,
      sumValues := (a0.sumValues + filteredValue) % 2 ^ 64,
      sampleCount := (a0.sampleCount + 1) % 2 ^ 32 }
  let periodDuration := uSub64 timestamp a1.periodStartTime
  (a1, decide ((MIN_STABLE_DURATION_MS ≤ periodDuration ∧ 50 ≤ a1.sampleCount) ∨
      MAX_INTERVAL_TIMEOUT_MS ≤ periodDuration))

/-- `processChangingPeriod`: add a sample to the in-progress changing
event; returns the new event and whether to finalize. -/
def processChangingPeriod (event : PressureEvent) (filteredValue timestamp : ℕ)
    (derivative : ℚ) : PressureEvent × Bool :=
  let e1 := if event.sampleCount = 0 then
      { event with
        startTimestamp := timestamp, startValue := filteredValue,
        hasDetailedSamples := true,
        triggerReason := if 0 < derivative then TriggerReason.derivativeRising
          else TriggerReason.derivativeFalling }
    else event
  let e2 := if e1.sampleCount < MAX_SAMPLES_PER_EVENT then
      { e1 with samples := Function.update e1.samples e1.sampleCount (⟨timestamp, filteredValue, derivative⟩ : PressureSample) }
    else e1
  let e3 := { e2 with
      endTimestamp := timestamp, endValue := filteredValue,
      sampleCount := (e2.sampleCount + 1) % 2 ^ 16 }
  let eventDuration := uSub64 timestamp e3.startTimestamp
  (e3, decide (MAX_SAMPLES_PER_EVENT ≤ e3.sampleCount ∨
      MAX_INTERVAL_TIMEOUT_MS ≤ eventDuration))

/-- `finalizeStablePeriod`: build the STABLE event for an accumulator
(an empty list when the accumulator holds no samples). -/
def finalizeStablePeriod (acc : StableAccumulator) (endTimestamp : ℕ) :
    List PressureEvent :=
  if acc.sampleCount = 0 then []
  else
    let avgValue := (acc.sumValues / acc.sampleCount) % 2 ^ 32
    [{ startTimestamp := acc.periodStartTime, endTimestamp := endTimestamp,
       type := EventType.stable, startValue := avgValue, endValue := avgValue,
       sampleCount := acc.sampleCount % 2 ^ 16,
       triggerReason := TriggerReason.timeout, hasDetailedSamples := false,
       samples := fun _ => emptyPressureSample }]

/-- `finalizeChangingEvent`: classify and emit a changing event
(an empty list when the event holds no samples). -/
def finalizeChangingEvent (event : PressureEvent) : List PressureEvent :=
  if event.sampleCount = 0 then []
  else
    let maxSamples := min event.sampleCount MAX_SAMPLES_PER_EVENT
    let avgDerivative : ℚ :=
      if event.hasDetailedSamples = true ∧ 1 < event.sampleCount then
        (((List.range maxSamples).map (fun i => (event.samples i).derivative)).sum) /
          (maxSamples : ℚ)
      else 0
    [{ event with type := classifyEvent avgDerivative event.startValue event.endValue }]

/-- Whole-processor state of `pressureTelemetryTask` (the module statics). -/
structure TelemetryState where
  primaryFiltered : ℚ
  secondaryFiltered : ℚ
  filtersInitialized : Bool
  window : DerivativeWindow
  filteredDerivative : ℚ
  sm : SignalStateMachine
  stableAcc : StableAccumulator
  currentEvent : PressureEvent
  eventInProgress : Bool

/-- State after `initializePressureTelemetry` (boot time modelled as 0). -/
def initTelemetryState : TelemetryState :=
  { primaryFiltered := 0, secondaryFiltered := 0, filtersInitialized := false,
    window := emptyDerivativeWindow, filteredDerivative := 0,
    sm := { currentState := SignalState.stable, stateStartTime := 0,
            lastEventTime := 0, eventsDetected := 0, transitionPending := false },
    stableAcc := emptyStableAccumulator, currentEvent := emptyPressureEvent,
    eventInProgress := false }

/-- Truncating float-to-`uint32_t` cast of a nonnegative filtered value. -/
def ratToUInt32 (q : ℚ) : ℕ := q.floor.toNat % 2 ^ 32

/-- Body of the per-sample loop of `pressureTelemetryTask`: consume one
`PressureReading`, returning the new state and the events handed to
`xQueueSend` (in order). -/
def processSample (st : TelemetryState) (r : PressureReading) :
    TelemetryState × List PressureEvent :=
  if r.isValid = false then (st, [])
  else if st.filtersInitialized = false then
    ({ st with
        primaryFiltered := (r.rawValue : ℚ),
        secondaryFiltered := (r.rawValue : ℚ), filtersInitialized := true,
        sm := { st.sm with stateStartTime := r.timestamp } }, [])
  else
    let primary := applyEPAFilter (r.rawValue : ℚ) st.primaryFiltered EPA_ALPHA_PRIMARY
    let secondary := applyEPAFilter primary st.secondaryFiltered EPA_ALPHA_SECONDARY
    let filteredValue := ratToUInt32 secondary
    let window := addToDerivativeWindow st.window secondary r.timestamp
    let currentDerivative := calculateDerivative window
    let fd := applyEPAFilter currentDerivative st.filteredDerivative DERIVATIVE_FILTER_ALPHA
    let smStep := updateSignalStateMachine st.sm fd r.timestamp
    let sm := smStep.1
    let stateChanged := smStep.2
    if sm.currentState = SignalState.stable then
      let closing : List PressureEvent × PressureEvent × Bool :=
        if stateChanged = true ∧ st.eventInProgress = true then
          (finalizeChangingEvent st.currentEvent, emptyPressureEvent, false)
        else ([], st.currentEvent, st.eventInProgress)
      let stStep := processStablePeriod st.stableAcc filteredValue r.timestamp
      let stClose : StableAccumulator × List PressureEvent :=
        if stStep.2 = true then
          (emptyStableAccumulator, finalizeStablePeriod stStep.1 r.timestamp)
        else (stStep.1, [])
      ({ primaryFiltered := primary, secondaryFiltered := secondary,
         filtersInitialized := true, window := window, filteredDerivative := fd,
         sm := sm, stableAcc := stClose.1, currentEvent := closing.2.1,
         eventInProgress := closing.2.2 }, closing.1 ++ stClose.2)
    else
      let stClose : List PressureEvent × StableAccumulator :=
        if stateChanged = true ∧ st.stableAcc.sampleCount ≠ 0 then
          (finalizeStablePeriod st.stableAcc r.timestamp, emptyStableAccumulator)
        else ([], st.stableAcc)
      let ev0 := if st.eventInProgress = false then emptyPressureEvent else st.currentEvent
      let chStep := processChangingPeriod ev0 filteredValue r.timestamp fd
      let chClose : PressureEvent × Bool × List PressureEvent :=
        if chStep.2 = true then
          (emptyPressureEvent, false, finalizeChangingEvent chStep.1)
        else (chStep.1, true, [])
      ({ primaryFiltered := primary, secondaryFiltered := secondary,
         filtersInitialized := true, window := window, filteredDerivative := fd,
         sm := sm, stableAcc := stClose.2, currentEvent := chClose.1,
         eventInProgress := chClose.2.1 }, stClose.1 ++ chClose.2.2)

/-- Run the processor over a list of readings, collecting every event
handed to the outbound queue, in order. -/
def runTelemetry (st : TelemetryState) (rs : List PressureReading) :
    TelemetryState × List PressureEvent :=
  rs.foldl (fun p r =>
    let q := processSample p.1 r
    (q.1, p.2 ++ q.2)) (st, [])

-- ===================================================================
-- Event structure validator (data_types.cpp)
-- ===================================================================

/-- `validatePressureEvent`: structural well-formedness check on a
`PressureEvent` (the null-pointer guard is dropped by value semantics). -/
def validatePressureEvent (event : PressureEvent) : Bool :=
  if event.startTimestamp = 0 ∨ event.endTimestamp = 0 then false
  else if event.endTimestamp < event.startTimestamp then false
  else if event.sampleCount = 0 then false
  else if MAX_SAMPLES_PER_EVENT < event.sampleCount then false
  else if event.hasDetailedSamples = true ∧ 0 < event.sampleCount ∧
      (event.samples 0).timestamp = 0 then false
  else if event.hasDetailedSamples = true ∧ 0 < event.sampleCount ∧
      (event.samples 0).timestamp < event.startTimestamp then false
  else true

-- ===================================================================
-- Sample validation (pressure_reader.cpp)
-- ===================================================================

/-- Module statics of `pressure_reader.cpp` used by validation. -/
structure ValidatorState where
  lastValidRawValue : ℕ
  firstSample : Bool
  consecutiveInvalidCount : ℕ
  deriving DecidableEq, Repr, Inhabited

/-- Validator state at boot (`lastValidRawValue = 0`, `firstSample = true`,
`consecutiveInvalidCount = 0`). -/
def initValidatorState : ValidatorState := ⟨0, true, 0⟩

/-- Unsigned distance between a raw sample and the validation baseline,
as computed by the ternary in `validatePressureReading`. -/
def sampleVariation (rawValue lastValid : ℕ) : ℕ :=
  if lastValid < rawValue then rawValue - lastValid else lastValid - rawValue

/-- `validatePressureReading` (pressure_reader.cpp): validate one raw
sample against the hardware band and the physical rate-of-change limit,
with baseline-reset recovery after `MAX_CONSECUTIVE_INVALID` consecutive
failures; returns the new module state and the validity verdict.
`ENABLE_VARIATION_VALIDATION` is `true` in the production parameters, so
the variation branch is compiled in; the `uint8_t` counter is reduced
mod `2^8` where incremented. -/
def validatePressureReading (s : ValidatorState) (rawValue : ℕ) :
    ValidatorState × Bool :=
  if rawValue ≤ RAW_VALUE_MIN ∨ RAW_VALUE_MAX ≤ rawValue then
    let c := (s.consecutiveInvalidCount + 1) % 2 ^ 8
    if MAX_CONSECUTIVE_INVALID ≤ c then
      ({ s with firstSample := true, consecutiveInvalidCount := 0 }, false)
    else ({ s with consecutiveInvalidCount := c }, false)
  else if s.firstSample = false ∧
      MAX_CHANGE_PER_SAMPLE < ((sampleVariation rawValue s.lastValidRawValue : ℕ) : ℚ) then
    let c := (s.consecutiveInvalidCount + 1) % 2 ^ 8
    if MAX_CONSECUTIVE_INVALID ≤ c then
      ({ lastValidRawValue := rawValue, firstSample := false,
         consecutiveInvalidCount := 0 }, true)
    else ({ s with consecutiveInvalidCount := c }, false)
  else
    ({ lastValidRawValue := rawValue, firstSample := false,
       consecutiveInvalidCount := 0 }, true)

/-- Whether processing `rawValue` in state `s` runs one of the two
baseline-reset branches of `validatePressureReading`. -/
def baselineResetOccurs (s : ValidatorState) (rawValue : ℕ) : Bool :=
  if rawValue ≤ RAW_VALUE_MIN ∨ RAW_VALUE_MAX ≤ rawValue then
    decide (MAX_CONSECUTIVE_INVALID ≤ (s.consecutiveInvalidCount + 1) % 2 ^ 8)
  else if s.firstSample = false ∧
      MAX_CHANGE_PER_SAMPLE < ((sampleVariation rawValue s.lastValidRawValue : ℕ) : ℚ) then
    decide (MAX_CONSECUTIVE_INVALID ≤ (s.consecutiveInvalidCount + 1) % 2 ^ 8)
  else false

/-- Run the validator over a list of raw samples, collecting verdicts. -/
def runValidator (s : ValidatorState) (rs : List ℕ) : ValidatorState × List Bool :=
  rs.foldl (fun p raw =>
    let q := validatePressureReading p.1 raw
    (q.1, p.2 ++ [q.2])) (s, [])

/-- Number of baseline resets performed while validating a sample list. -/
def countBaselineResets (s : ValidatorState) (rs : List ℕ) : ℕ :=
  (rs.foldl (fun p raw =>
    ((validatePressureReading p.1 raw).1,
     p.2 + (if baselineResetOccurs p.1 raw then 1 else 0))) (s, 0)).2

-- ===================================================================
-- JSON serialization of events (message_formatter.cpp)
-- ===================================================================

/-- `getEventTypeString` (data_types.cpp). -/
def getEventTypeString (t : EventType) : String :=
  match t with
  | EventType.stable => "stable"
  | EventType.rising => "rising"
  | EventType.falling => "falling"
  | EventType.oscillation => "oscillation"

/-- `getTriggerReasonString` (data_types.cpp). -/
def getTriggerReasonString (r : TriggerReason) : String :=
  match r with
  | TriggerReason.derivativeRising => "derivative_rising"
  | TriggerReason.derivativeFalling => "derivative_falling"
  | TriggerReason.timeout => "timeout"
  | TriggerReason.bufferFull => "buffer_full"

/-- Abstract shape of the JSON object built by `formatEventToJson`:
optional fields are `none` exactly when the corresponding
`jsonObject[...]` assignment is not executed. -/
structure EventJson where
  typeName : String
  startTimestamp : ℕ
  endTimestamp : ℕ
  sampleCount : ℕ
  durationMs : ℕ
  pressure : Option ℕ
  startValue : Option ℕ
  endValue : Option ℕ
  triggerReasonName : Option String
  samples : Option (List (ℕ × ℕ))
  deriving DecidableEq, Repr

/-- `formatEventToJson` (message_formatter.cpp): per-event JSON assembly.
The `(startValue + endValue) / 2` average is `uint32_t` arithmetic; the
detailed-samples loop runs `i < sampleCount && i < MAX_SAMPLES_PER_EVENT`
and pushes `[timestamp, filteredValue]` pairs. -/
def formatEventToJson (e : PressureEvent) : EventJson :=
  { typeName := getEventTypeString e.type,
    startTimestamp := e.startTimestamp,
    endTimestamp := e.endTimestamp,
    sampleCount := e.sampleCount,
    durationMs := uSub64 e.endTimestamp e.startTimestamp,
    pressure := if e.type = EventType.stable then
        some (((e.startValue + e.endValue) % 2 ^ 32) / 2)
      else none,
    startValue := if e.type = EventType.stable then none else some e.startValue,
    endValue := if e.type = EventType.stable then none else some e.endValue,
    triggerReasonName := if e.type = EventType.stable then none
      else some (getTriggerReasonString e.triggerReason),
    samples := if e.type ≠ EventType.stable ∧ e.hasDetailedSamples = true ∧
        e.sampleCount ≤ 50 then
        some ((List.range (min e.sampleCount MAX_SAMPLES_PER_EVENT)).map
          (fun i => ((e.samples i).timestamp, (e.samples i).filteredValue)))
      else none }

-- ===================================================================
-- Lifecycle controller (system_state.cpp)
-- ===================================================================

/-- System connectivity states handled by `system_state.cpp`. -/
inductive SystemState where
  | connecting
  | configMqtt
  | connectedWifi
  | connectedMqtt
  | configMode
  | otaUpdate
  | error
  deriving DecidableEq, Repr, Inhabited

/-- Set of notification bits received by one `xTaskNotifyWait` drain,
one flag per `TaskNotificationEvent` bit tested in
`handleStateTransitions`. -/
structure SysEventBits where
  longPressButton : Bool
  wifiConnected : Bool
  noParametersEeprom : Bool
  wifiFailConnect : Bool
  mqttAwsCredentials : Bool
  mqttConnected : Bool
  mqttDisconnected : Bool
  wifiDisconnected : Bool
  otaUpdateEvent : Bool
  pressureQueueFull : Bool
  i2cErrorRecovery : Bool
  deriving DecidableEq, Repr, Inhabited

/-- `handleStateTransitions`: next system state from the current state and
the drained notification bits. The long-press bit preempts everything and
forces CONFIG_MODE from any state; within a state, later `if` bodies
overwrite earlier ones because each executes `setSystemState`. -/
def handleStateTransitions (st : SystemState) (ev : SysEventBits) : SystemState :=
  if ev.longPressButton = true then SystemState.configMode
  else
    match st with
    | SystemState.connecting =>
        let s1 := if ev.wifiConnected = true then SystemState.configMqtt else st
        if ev.noParametersEeprom = true then SystemState.configMode else s1
    | SystemState.configMqtt =>
        if ev.mqttAwsCredentials = true then SystemState.connectedWifi else st
    | SystemState.connectedWifi =>
        if ev.mqttConnected = true then SystemState.connectedMqtt else st
    | SystemState.connectedMqtt =>
        let s1 := if ev.mqttDisconnected = true then SystemState.configMqtt else st
        let s2 := if ev.wifiDisconnected = true then SystemState.connecting else s1
        if ev.otaUpdateEvent = true then SystemState.otaUpdate else s2
    | SystemState.configMode =>
        if ev.wifiConnected = true then SystemState.configMqtt else st
    | SystemState.error => st
    | SystemState.otaUpdate => st

/-- Running/suspended status of a task, as set by
`vTaskResume`/`vTaskSuspend`. -/
inductive TaskRun where
  | running
  | suspended
  deriving DecidableEq, Repr, Inhabited

/-- Run status of the eight tasks managed by `handleStateActions`
(the LED, log and state-manager tasks are never suspended or resumed). -/
structure TaskStatuses where
  wifiConnect : TaskRun
  wifiConfig : TaskRun
  mqttConnect : TaskRun
  mqtt : TaskRun
  pressureReader : TaskRun
  button : TaskRun
  pressureTelemetry : TaskRun
  messageFormatter : TaskRun
  deriving DecidableEq, Repr, Inhabited

/-- Observable state acted on by `handleStateActions`: the task statuses,
whether the OTA task has been created, and whether `ESP.restart()` has
been reached. -/
structure ActionState where
  tasks : TaskStatuses
  otaCreated : Bool
  restarted : Bool
  deriving DecidableEq, Repr, Inhabited

/-- `handleStateActions`: re-apply the per-state resume/suspend action
table (all task handles are non-null after initialization, and OTA task
creation is modelled as succeeding). In the ERROR case the code suspends
every managed task except the message-formatter task, waits 5 s and calls
`ESP.restart()`, modelled by setting `restarted`. -/
def handleStateActions (st : SystemState) (a : ActionState) : ActionState :=
  match st with
  | SystemState.connecting =>
      { a with tasks :=
        { wifiConnect := TaskRun.running, wifiConfig := TaskRun.suspended,
          mqttConnect := TaskRun.suspended, mqtt := TaskRun.suspended,
          pressureReader := TaskRun.suspended, button := TaskRun.suspended,
          pressureTelemetry := TaskRun.suspended,
          messageFormatter := TaskRun.suspended } }
  | SystemState.connectedWifi =>
      { a with tasks :=
        { wifiConnect := TaskRun.running, wifiConfig := TaskRun.suspended,
          mqttConnect := TaskRun.suspended, mqtt := TaskRun.running,
          pressureReader := TaskRun.running, button := TaskRun.suspended,
          pressureTelemetry := TaskRun.running,
          messageFormatter := TaskRun.suspended } }
  | SystemState.configMqtt =>
      { a with tasks :=
        { wifiConnect := TaskRun.running, wifiConfig := TaskRun.suspended,
          mqttConnect := TaskRun.running, mqtt := TaskRun.suspended,
          pressureReader := TaskRun.suspended, button := TaskRun.suspended,
          pressureTelemetry := TaskRun.suspended,
          messageFormatter := TaskRun.suspended } }
  | SystemState.connectedMqtt =>
      { a with tasks :=
        { wifiConnect := TaskRun.running, wifiConfig := TaskRun.suspended,
          mqttConnect := TaskRun.suspended, mqtt := TaskRun.running,
          pressureReader := TaskRun.running, button := TaskRun.suspended,
          pressureTelemetry := TaskRun.running,
          messageFormatter := TaskRun.running } }
  | SystemState.configMode =>
      { a with tasks :=
        { wifiConnect := TaskRun.suspended, wifiConfig := TaskRun.running,
          mqttConnect := TaskRun.suspended, mqtt := TaskRun.suspended,
          pressureReader := TaskRun.suspended, button := TaskRun.suspended,
          pressureTelemetry := TaskRun.suspended,
          messageFormatter := TaskRun.suspended } }
  | SystemState.otaUpdate =>
      if a.otaCreated = false then
        { a with
          tasks := { a.tasks with
            wifiConnect := TaskRun.suspended, mqttConnect := TaskRun.suspended,
            mqtt := TaskRun.suspended, pressureReader := TaskRun.suspended,
            button := TaskRun.suspended, pressureTelemetry := TaskRun.suspended },
          otaCreated := true }
      else a
  | SystemState.error =>
      { a with
        tasks := { a.tasks with
          wifiConnect := TaskRun.suspended, wifiConfig := TaskRun.suspended,
          mqttConnect := TaskRun.suspended, mqtt := TaskRun.suspended,
          pressureReader := TaskRun.suspended, button := TaskRun.suspended,
          pressureTelemetry := TaskRun.suspended },
        restarted := true }

-- ===================================================================
-- Concrete input traces used to settle individual claims
-- ===================================================================

/-- Reading trace for the classification analysis: a warm-up sample, one
stable sample, one step that drives the smoothed derivative to 1500
(entering CHANGING), then a 60 ms gap sample that re-enters STABLE, so
the changing event is finalized with a single stored sample. -/
def classificationTrace : List PressureReading :=
  [⟨0, 1000000, true⟩, ⟨10, 1000000, true⟩, ⟨20, 1030000, true⟩, ⟨80, 800000, true⟩]

/-- Reading trace for the trigger-reason analysis: same shape as
`classificationTrace` at a different pressure level. -/
def triggerTrace : List PressureReading :=
  [⟨0, 2000000, true⟩, ⟨10, 2000000, true⟩, ⟨20, 2030000, true⟩, ⟨80, 1800000, true⟩]

/-- Reading trace for the event-invariant analysis: valid constant samples
every 10 ms up to t = 1010 (102 samples accumulated after warm-up), then
one more at t = 2500, which pushes the stable-period duration past
`MIN_STABLE_DURATION_MS` and finalizes with 102 accumulated samples. -/
def capacityTrace : List PressureReading :=
  (List.range 102).map (fun i => ⟨10 * i, 1000000, true⟩) ++ [⟨2500, 1000000, true⟩]

-- ===================================================================
-- Supporting lemmas
-- ===================================================================

theorem uSub64_eq_sub (a b : ℕ) (h1 : b ≤ a) (h2 : a < 2 ^ 64) :
    uSub64 a b = a - b := by
  unfold uSub64
  omega

theorem uSub64_self (a : ℕ) : uSub64 a a = 0 := by
  unfold uSub64
  omega

-- ===================================================================
-- C1: signal-state hysteresis
-- ===================================================================

/-- C1: for every update of the signal state machine with smoothed
derivative `d` at time `t`, a STABLE machine transitions to CHANGING iff
`|d|` exceeds `DERIVATIVE_THRESHOLD`, and a CHANGING machine transitions
back to STABLE iff `|d|` is below the threshold times
`EVENT_HYSTERESIS_FACTOR` and at least `MIN_EVENT_DURATION_MS` has elapsed
since the state was entered; no other transition occurs (the state is
binary, so the two equivalences determine every transition). -/
theorem signal_state_hysteresis (sm : SignalStateMachine) (d : ℚ) (t : ℕ)
    (h1 : sm.stateStartTime ≤ t) (h2 : t < 2 ^ 64) :
    (sm.currentState = SignalState.stable →
      (((updateSignalStateMachine sm d t).1.currentState = SignalState.changing) ↔
        DERIVATIVE_THRESHOLD < |d|)) ∧
    (sm.currentState = SignalState.changing →
      (((updateSignalStateMachine sm d t).1.currentState = SignalState.stable) ↔
        (|d| < DERIVATIVE_THRESHOLD * EVENT_HYSTERESIS_FACTOR ∧
          MIN_EVENT_DURATION_MS ≤ t - sm.stateStartTime))) := by
  have hu : uSub64 t sm.stateStartTime = t - sm.stateStartTime :=
    uSub64_eq_sub t sm.stateStartTime h1 h2
  constructor
  · intro hcs
    simp only [updateSignalStateMachine, hcs]
    split_ifs with h
    · simpa using h
    · simp [hcs, h]
  · intro hcs
    simp only [updateSignalStateMachine, hcs, hu]
    split_ifs with h
    · simpa using h
    · simp only [not_and_or] at h
      simp [hcs]
      intro hlt
      rcases h with h | h
      · exact absurd hlt h
      · omega

/-- Witness for C1 at a concrete machine and derivative. -/
theorem signal_state_hysteresis_witness :
    (updateSignalStateMachine
      ⟨SignalState.stable, 0, 0, 0, false⟩ 2000 100).1.currentState =
      SignalState.changing := by
  have h := ((signal_state_hysteresis ⟨SignalState.stable, 0, 0, 0, false⟩ 2000 100
    (by norm_num) (by norm_num)).1 rfl).mpr
  apply h
  rw [abs_of_pos (by norm_num : (0 : ℚ) < 2000)]
  norm_num [DERIVATIVE_THRESHOLD, DERIVATIVE_THRESHOLD_PER_SEC, SENSOR_SAMPLE_RATE_HZ]

-- ===================================================================
-- C2: cascaded smoothing
-- ===================================================================

/-- C2: on the very first valid sample the two filter states are set to
the raw value and nothing else happens (no event, no derivative-window
push, no state-machine update, no accumulator update); on every later
valid sample the primary filter becomes
`α1·raw + (1-α1)·primary_prev` and the secondary becomes
`α2·primary_new + (1-α2)·secondary_prev`. -/
theorem cascaded_smoothing (st : TelemetryState) (r : PressureReading)
    (hv : r.isValid = true) :
    (st.filtersInitialized = false →
      (processSample st r).1.primaryFiltered = (r.rawValue : ℚ) ∧
      (processSample st r).1.secondaryFiltered = (r.rawValue : ℚ) ∧
      (processSample st r).2 = [] ∧
      (processSample st r).1.window = st.window ∧
      (processSample st r).1.filteredDerivative = st.filteredDerivative ∧
      (processSample st r).1.sm.currentState = st.sm.currentState ∧
      (processSample st r).1.stableAcc = st.stableAcc ∧
      (processSample st r).1.currentEvent = st.currentEvent ∧
      (processSample st r).1.eventInProgress = st.eventInProgress) ∧
    (st.filtersInitialized = true →
      (processSample st r).1.primaryFiltered =
        EPA_ALPHA_PRIMARY * (r.rawValue : ℚ) +
          (1 - EPA_ALPHA_PRIMARY) * st.primaryFiltered ∧
      (processSample st r).1.secondaryFiltered =
        EPA_ALPHA_SECONDARY * (processSample st r).1.primaryFiltered +
          (1 - EPA_ALPHA_SECONDARY) * st.secondaryFiltered) := by
  constructor
  · intro hinit
    simp [processSample, hv, hinit]
  · intro hinit
    simp only [processSample, hv, hinit, Bool.true_eq_false, if_false]
    split
    · exact ⟨rfl, rfl⟩
    · exact ⟨rfl, rfl⟩

/-- Witness for C2 at a concrete state and reading. -/
theorem cascaded_smoothing_witness :
    (processSample initTelemetryState ⟨0, 5000000, true⟩).1.primaryFiltered =
      (5000000 : ℚ) ∧
    (processSample initTelemetryState ⟨0, 5000000, true⟩).2 = [] := by
  have h := (cascaded_smoothing initTelemetryState ⟨0, 5000000, true⟩ rfl).1 rfl
  exact ⟨by simpa using h.1, h.2.2.1⟩

-- ===================================================================
-- C6: per-event serialization
-- ===================================================================

/-- C6: a STABLE event serializes with only aggregate fields — its
`pressure` field is the (uint32) average of `startValue` and `endValue` —
and never carries a samples array or start/end/trigger fields; a
non-STABLE (changing) event serializes start/end values and trigger
reason, and carries a samples array of (timestamp, value) pairs exactly
when it has detailed samples and its sample count is within the secondary
cap 50, which is strictly smaller than the hard per-event cap
`MAX_SAMPLES_PER_EVENT`; beyond the cap the samples array is absent while
the event metadata remains present. -/
theorem event_serialization (e : PressureEvent) :
    (e.type = EventType.stable →
      (formatEventToJson e).pressure =
        some (((e.startValue + e.endValue) % 2 ^ 32) / 2) ∧
      (formatEventToJson e).samples = none ∧
      (formatEventToJson e).startValue = none ∧
      (formatEventToJson e).endValue = none ∧
      (formatEventToJson e).triggerReasonName = none) ∧
    (e.type ≠ EventType.stable →
      (formatEventToJson e).startValue = some e.startValue ∧
      (formatEventToJson e).endValue = some e.endValue ∧
      (formatEventToJson e).triggerReasonName =
        some (getTriggerReasonString e.triggerReason) ∧
      (formatEventToJson e).pressure = none ∧
      (formatEventToJson e).typeName = getEventTypeString e.type ∧
      (e.hasDetailedSamples = true ∧ e.sampleCount ≤ 50 →
        (formatEventToJson e).samples =
          some ((List.range (min e.sampleCount MAX_SAMPLES_PER_EVENT)).map
            (fun i => ((e.samples i).timestamp, (e.samples i).filteredValue)))) ∧
      (¬(e.hasDetailedSamples = true ∧ e.sampleCount ≤ 50) →
        (formatEventToJson e).samples = none)) ∧
    50 < MAX_SAMPLES_PER_EVENT := by
  refine ⟨fun hst => ?_, fun hst => ?_, by norm_num [MAX_SAMPLES_PER_EVENT]⟩
  · simp [formatEventToJson, hst]
  · refine ⟨by simp [formatEventToJson, hst], by simp [formatEventToJson, hst],
      by simp [formatEventToJson, hst], by simp [formatEventToJson, hst],
      by simp [formatEventToJson], fun hdet => ?_, fun hdet => ?_⟩
    · simp [formatEventToJson, hst, hdet.1, hdet.2]
    · rw [not_and_or] at hdet
      rcases hdet with h | h
      · simp only [formatEventToJson]
        rw [if_neg]
        simp only [not_and_or]
        exact Or.inr (Or.inl h)
      · simp only [formatEventToJson]
        rw [if_neg]
        simp only [not_and_or]
        exact Or.inr (Or.inr h)

/-- Witness for C6: a concrete truncated changing event (100 samples). -/
theorem event_serialization_witness :
    (formatEventToJson { emptyPressureEvent with
      type := EventType.rising, startTimestamp := 10, endTimestamp := 500,
      startValue := 100, endValue := 900, sampleCount := 100,
      hasDetailedSamples := true }).samples = none ∧
    (formatEventToJson { emptyPressureEvent with
      type := EventType.rising, startTimestamp := 10, endTimestamp := 500,
      startValue := 100, endValue := 900, sampleCount := 100,
      hasDetailedSamples := true }).startValue = some 100 := by
  have h := event_serialization { emptyPressureEvent with
    type := EventType.rising, startTimestamp := 10, endTimestamp := 500,
    startValue := 100, endValue := 900, sampleCount := 100,
    hasDetailedSamples := true }
  have hne : ({ emptyPressureEvent with
      type := EventType.rising, startTimestamp := 10, endTimestamp := 500,
      startValue := 100, endValue := 900, sampleCount := 100,
      hasDetailedSamples := true } : PressureEvent).type ≠ EventType.stable := by
    simp
  exact ⟨(h.2.1 hne).2.2.2.2.2.2 (by norm_num), (h.2.1 hne).1⟩

-- ===================================================================
-- C8: idempotent, state-determined task gating
-- ===================================================================

/-- C8 counterexample: in the ERROR state the action table leaves the
message-formatter task's status unchanged, so the resulting run/paused
status set is not a function of the current System State alone: two
action states differing only in the formatter's status map to different
status sets. -/
theorem action_table_not_state_determined :
    (handleStateActions SystemState.error
      ⟨⟨TaskRun.running, TaskRun.running, TaskRun.running, TaskRun.running,
        TaskRun.running, TaskRun.running, TaskRun.running, TaskRun.running⟩,
        false, false⟩).tasks ≠
    (handleStateActions SystemState.error
      ⟨⟨TaskRun.running, TaskRun.running, TaskRun.running, TaskRun.running,
        TaskRun.running, TaskRun.running, TaskRun.running, TaskRun.suspended⟩,
        false, false⟩).tasks := by
  decide

/-- C8 amended: re-applying the action table twice in a row in the same
state always yields exactly the same result as applying it once (for
every System State, including OTA_UPDATE and ERROR); and for the five
connectivity states — CONNECTING, CONFIG_MQTT, CONNECTED_WIFI,
CONNECTED_MQTT, CONFIG_MODE — the resulting run/paused status set of the
eight managed tasks is a function of the current System State alone. In
OTA_UPDATE and ERROR some task statuses (notably the message formatter's)
are inherited rather than assigned. -/
theorem action_table_idempotent :
    (∀ (st : SystemState) (a : ActionState),
      handleStateActions st (handleStateActions st a) = handleStateActions st a) ∧
    (∀ st : SystemState,
      (st = SystemState.connecting ∨ st = SystemState.configMqtt ∨
        st = SystemState.connectedWifi ∨ st = SystemState.connectedMqtt ∨
        st = SystemState.configMode) →
      ∀ a b : ActionState,
        (handleStateActions st a).tasks = (handleStateActions st b).tasks) := by
  constructor
  · intro st a
    rcases a with ⟨⟨t1, t2, t3, t4, t5, t6, t7, t8⟩, ota, rst⟩
    cases st <;> cases ota <;> rfl
  · intro st h a b
    rcases h with h | h | h | h | h <;> subst h <;> rfl

/-- Witness for C8 at a concrete state pair. -/
theorem action_table_idempotent_witness :
    (handleStateActions SystemState.connecting
      ⟨⟨TaskRun.running, TaskRun.running, TaskRun.running, TaskRun.running,
        TaskRun.running, TaskRun.running, TaskRun.running, TaskRun.running⟩,
        false, false⟩).tasks =
    (handleStateActions SystemState.connecting
      ⟨⟨TaskRun.suspended, TaskRun.suspended, TaskRun.suspended,
        TaskRun.suspended, TaskRun.suspended, TaskRun.suspended,
        TaskRun.suspended, TaskRun.suspended⟩, true, false⟩).tasks :=
  action_table_idempotent.2 SystemState.connecting (Or.inl rfl) _ _

-- ===================================================================
-- C9: ERROR is terminal within a single boot
-- ===================================================================

/-- C9 counterexample: in ERROR the action handler leaves the Message
Batcher (message-formatter task) running rather than suspending it, and
the long-press-configure event moves the state machine out of ERROR to
CONFIG_MODE without a restart. -/
theorem error_state_counterexample :
    (handleStateActions SystemState.error
      ⟨⟨TaskRun.running, TaskRun.running, TaskRun.running, TaskRun.running,
        TaskRun.running, TaskRun.running, TaskRun.running, TaskRun.running⟩,
        false, false⟩).tasks.messageFormatter = TaskRun.running ∧
    handleStateTransitions SystemState.error
      ⟨true, false, false, false, false, false, false, false, false, false,
        false⟩ = SystemState.configMode := by
  decide

/-- C9 amended: in the ERROR state the action handler suspends the Sample
Source (pressure reader), the Signal Processor (pressure telemetry) and
the collaborator tasks, but leaves the Message Batcher's status
unchanged, then waits a fixed delay and forces a full device restart; and
no event moves the state machine out of ERROR except the unconditional
long-press-configure preemption to CONFIG_MODE. -/
theorem error_state_amended :
    (∀ a : ActionState,
      handleStateActions SystemState.error a =
        ⟨⟨TaskRun.suspended, TaskRun.suspended, TaskRun.suspended,
          TaskRun.suspended, TaskRun.suspended, TaskRun.suspended,
          TaskRun.suspended, a.tasks.messageFormatter⟩, a.otaCreated, true⟩) ∧
    (∀ ev : SysEventBits, ev.longPressButton = false →
      handleStateTransitions SystemState.error ev = SystemState.error) := by
  constructor
  · intro a
    rfl
  · intro ev h
    simp [handleStateTransitions, h]

/-- Witness for C9 at a concrete event-bit set. -/
theorem error_state_amended_witness :
    handleStateTransitions SystemState.error
      ⟨false, true, true, true, true, true, true, true, true, true, true⟩ =
      SystemState.error :=
  error_state_amended.2 _ rfl

-- ===================================================================
-- C7: sample validation and baseline recovery
-- ===================================================================

theorem runValidator_acc (rs : List ℕ) (s : ValidatorState) (acc : List Bool) :
    rs.foldl (fun p raw =>
      let q := validatePressureReading p.1 raw
      (q.1, p.2 ++ [q.2])) (s, acc) =
    ((runValidator s rs).1, acc ++ (runValidator s rs).2) := by
  induction rs generalizing s acc with
  | nil => simp [runValidator]
  | cons r rs ih =>
      simp only [runValidator, List.foldl_cons, List.nil_append]
      rw [ih ((validatePressureReading s r).1)
          (acc ++ [(validatePressureReading s r).2]),
        ih ((validatePressureReading s r).1)
          ([(validatePressureReading s r).2])]
      simp

theorem runValidator_cons (s : ValidatorState) (r : ℕ) (rs : List ℕ) :
    runValidator s (r :: rs) =
      ((runValidator (validatePressureReading s r).1 rs).1,
        (validatePressureReading s r).2 ::
          (runValidator (validatePressureReading s r).1 rs).2) := by
  simp only [runValidator, List.foldl_cons, List.nil_append]
  rw [runValidator_acc rs ((validatePressureReading s r).1)
    ([(validatePressureReading s r).2])]
  simp [runValidator]

theorem runValidator_nil (s : ValidatorState) : runValidator s [] = (s, []) := rfl

theorem runValidator_append (s : ValidatorState) (xs ys : List ℕ) :
    runValidator s (xs ++ ys) =
      ((runValidator (runValidator s xs).1 ys).1,
       (runValidator s xs).2 ++ (runValidator (runValidator s xs).1 ys).2) := by
  induction xs generalizing s with
  | nil => simp [runValidator_nil]
  | cons x xs ih =>
      simp only [List.cons_append, runValidator_cons, ih]

theorem countBaselineResets_cons (s : ValidatorState) (r : ℕ) (rs : List ℕ) :
    countBaselineResets s (r :: rs) =
      (if baselineResetOccurs s r then 1 else 0) +
        countBaselineResets (validatePressureReading s r).1 rs := by
  have hacc : ∀ (l : List ℕ) (t : ValidatorState) (k : ℕ),
      (l.foldl (fun p raw =>
        ((validatePressureReading p.1 raw).1,
         p.2 + (if baselineResetOccurs p.1 raw then 1 else 0))) (t, k)).2 =
      k + countBaselineResets t l := by
    intro l
    induction l with
    | nil => intro t k; simp [countBaselineResets]
    | cons x xs ih =>
        intro t k
        simp only [countBaselineResets, List.foldl_cons]
        rw [ih, ih]
        omega
  simp only [countBaselineResets, List.foldl_cons]
  rw [hacc rs ((validatePressureReading s r).1)
      (0 + if baselineResetOccurs s r then 1 else 0),
    hacc rs ((validatePressureReading s r).1) 0]
  omega

theorem countBaselineResets_append (s : ValidatorState) (xs ys : List ℕ) :
    countBaselineResets s (xs ++ ys) =
      countBaselineResets s xs +
        countBaselineResets (runValidator s xs).1 ys := by
  induction xs generalizing s with
  | nil => simp [countBaselineResets, runValidator_nil]
  | cons x xs ih =>
      simp only [List.cons_append, countBaselineResets_cons, ih,
        runValidator_cons]
      omega

/-- One validator step on an in-band sample deviating from the baseline by
more than the physical per-sample limit, while the invalid run-length is
still short: the sample is rejected and the counter advances. -/
theorem validator_step_deviating (A B c : ℕ)
    (hB1 : RAW_VALUE_MIN < B) (hB2 : B < RAW_VALUE_MAX)
    (hvar : MAX_CHANGE_PER_SAMPLE < ((sampleVariation B A : ℕ) : ℚ))
    (hc : c + 1 < MAX_CONSECUTIVE_INVALID) :
    validatePressureReading ⟨A, false, c⟩ B = (⟨A, false, c + 1⟩, false) := by
  unfold MAX_CONSECUTIVE_INVALID at hc
  unfold validatePressureReading
  rw [if_neg (by push_neg; exact ⟨hB1, hB2⟩)]
  rw [if_pos ⟨rfl, hvar⟩]
  dsimp only
  have hmod : (c + 1) % 2 ^ 8 = c + 1 := by omega
  rw [hmod, if_neg (by unfold MAX_CONSECUTIVE_INVALID; omega)]

/-- Running `n < MAX_CONSECUTIVE_INVALID` deviating in-band samples from a
clean state rejects them all, performs no baseline reset, and only
advances the invalid counter. -/
theorem validator_run_deviating (A B : ℕ)
    (hB1 : RAW_VALUE_MIN < B) (hB2 : B < RAW_VALUE_MAX)
    (hvar : MAX_CHANGE_PER_SAMPLE < ((sampleVariation B A : ℕ) : ℚ)) :
    ∀ n c, c + n < MAX_CONSECUTIVE_INVALID →
      runValidator ⟨A, false, c⟩ (List.replicate n B) =
        (⟨A, false, c + n⟩, List.replicate n false) ∧
      countBaselineResets ⟨A, false, c⟩ (List.replicate n B) = 0 := by
  intro n
  induction n with
  | zero => intro c _; exact ⟨rfl, rfl⟩
  | succ n ih =>
      intro c hc
      have hstep : validatePressureReading ⟨A, false, c⟩ B =
          (⟨A, false, c + 1⟩, false) :=
        validator_step_deviating A B c hB1 hB2 hvar
          (by unfold MAX_CONSECUTIVE_INVALID at hc ⊢; omega)
      have hres : baselineResetOccurs ⟨A, false, c⟩ B = false := by
        unfold baselineResetOccurs
        rw [if_neg (by push_neg; exact ⟨hB1, hB2⟩)]
        rw [if_pos ⟨rfl, hvar⟩]
        dsimp only
        simp only [decide_eq_false_iff_not]
        unfold MAX_CONSECUTIVE_INVALID at hc ⊢
        omega
      have ihc := ih (c + 1) (by omega)
      have hce : c + 1 + n = c + (n + 1) := by omega
      constructor
      · rw [List.replicate_succ, runValidator_cons, hstep]
        simp only [ihc.1, hce]
        rw [← List.replicate_succ]
      · rw [List.replicate_succ, countBaselineResets_cons, hstep, hres]
        simp [ihc.2]

/-- The `MAX_CONSECUTIVE_INVALID`-th consecutive deviating in-band sample
triggers the baseline-reset branch: the sample is accepted and the
baseline becomes its value. -/
theorem validator_step_reset (A B : ℕ)
    (hB1 : RAW_VALUE_MIN < B) (hB2 : B < RAW_VALUE_MAX)
    (hvar : MAX_CHANGE_PER_SAMPLE < ((sampleVariation B A : ℕ) : ℚ)) :
    validatePressureReading ⟨A, false, MAX_CONSECUTIVE_INVALID - 1⟩ B =
      (⟨B, false, 0⟩, true) ∧
    baselineResetOccurs ⟨A, false, MAX_CONSECUTIVE_INVALID - 1⟩ B = true := by
  constructor
  · unfold validatePressureReading
    rw [if_neg (by push_neg; exact ⟨hB1, hB2⟩)]
    rw [if_pos ⟨rfl, hvar⟩]
    dsimp only
    rw [if_pos (by norm_num [MAX_CONSECUTIVE_INVALID])]
  · unfold baselineResetOccurs
    rw [if_neg (by push_neg; exact ⟨hB1, hB2⟩)]
    rw [if_pos ⟨rfl, hvar⟩]
    dsimp only
    simp [MAX_CONSECUTIVE_INVALID]

/-- C7 counterexample: with baseline 1000000 established, twenty
consecutive samples at 1010000 (each deviating by 10000 > 5000 from the
last valid sample, strictly inside the sensor band) end with the 20th
sample validating as TRUE, although its absolute change from the last
valid sample exceeds the per-sample delta — falsifying the claimed
"valid if and only if in band and within the per-sample delta". -/
theorem validation_iff_counterexample :
    ((runValidator (validatePressureReading initValidatorState 1000000).1
        (List.replicate 20 1010000)).2.getLast? = some true) ∧
    ((runValidator (validatePressureReading initValidatorState 1000000).1
        (List.replicate 19 1010000)).1.lastValidRawValue = 1000000) ∧
    MAX_CHANGE_PER_SAMPLE < ((sampleVariation 1010000 1000000 : ℕ) : ℚ) ∧
    RAW_VALUE_MIN < 1010000 ∧ 1010000 < RAW_VALUE_MAX := by
  with_unfolding_all decide

/-- C7 amended: a sample is valid iff it lies strictly within the sensor
band and its change from the last valid sample is within the per-sample
delta, EXCEPT the `MAX_CONSECUTIVE_INVALID`-th consecutive deviating
sample, which is accepted as part of the baseline reset. For every
sustained in-band step (deviation beyond the delta) lasting
`MAX_CONSECUTIVE_INVALID` samples, starting from any clean validator
state: the first 19 samples are rejected, the 20th is accepted, exactly
one baseline reset occurs, the baseline becomes the most recent value,
and subsequent in-band samples within the delta of the new level
validate as true. -/
theorem baseline_recovery_amended (A B C : ℕ) (s : ValidatorState)
    (hfs : s.firstSample = false) (hc : s.consecutiveInvalidCount = 0)
    (hA : s.lastValidRawValue = A)
    (hB1 : RAW_VALUE_MIN < B) (hB2 : B < RAW_VALUE_MAX)
    (hvar : MAX_CHANGE_PER_SAMPLE < ((sampleVariation B A : ℕ) : ℚ))
    (hC1 : RAW_VALUE_MIN < C) (hC2 : C < RAW_VALUE_MAX)
    (hCB : ¬ MAX_CHANGE_PER_SAMPLE < ((sampleVariation C B : ℕ) : ℚ)) :
    (runValidator s (List.replicate MAX_CONSECUTIVE_INVALID B)).2 =
      List.replicate (MAX_CONSECUTIVE_INVALID - 1) false ++ [true] ∧
    (runValidator s (List.replicate MAX_CONSECUTIVE_INVALID B)).1 =
      ⟨B, false, 0⟩ ∧
    countBaselineResets s (List.replicate MAX_CONSECUTIVE_INVALID B) = 1 ∧
    (validatePressureReading ⟨B, false, 0⟩ C).2 = true := by
  have hs : s = ⟨A, false, 0⟩ := by
    obtain ⟨lv, fs, cnt⟩ := s
    simp only at hfs hc hA
    simp [hfs, hc, hA]
  rw [hs]
  have hrun := validator_run_deviating A B hB1 hB2 hvar 19 0
    (by norm_num [MAX_CONSECUTIVE_INVALID])
  simp only [Nat.zero_add] at hrun
  have hstep := validator_step_reset A B hB1 hB2 hvar
  have hlast : validatePressureReading ⟨A, false, 19⟩ B = (⟨B, false, 0⟩, true) :=
    hstep.1
  have hreset : baselineResetOccurs ⟨A, false, 19⟩ B = true := hstep.2
  have h20 : List.replicate MAX_CONSECUTIVE_INVALID B =
      List.replicate 19 B ++ [B] := List.replicate_succ' 19 B
  have hCvalid : (validatePressureReading ⟨B, false, 0⟩ C).2 = true := by
    unfold validatePressureReading
    rw [if_neg (by push_neg; exact ⟨hC1, hC2⟩)]
    rw [if_neg (by
      simp only [not_and_or]
      exact Or.inr hCB)]
  refine ⟨?_, ?_, ?_, hCvalid⟩
  · rw [h20, runValidator_append, hrun.1]
    simp only [runValidator_cons, hlast, runValidator_nil]
    rfl
  · rw [h20, runValidator_append, hrun.1]
    simp only [runValidator_cons, hlast, runValidator_nil]
  · rw [h20, countBaselineResets_append, hrun.1, hrun.2]
    simp only [countBaselineResets_cons, hreset, hlast]
    rfl

/-- Witness for C7 at a concrete baseline and step level. -/
theorem baseline_recovery_amended_witness :
    (runValidator ⟨1000000, false, 0⟩
        (List.replicate MAX_CONSECUTIVE_INVALID 1010000)).1 =
      ⟨1010000, false, 0⟩ ∧
    countBaselineResets ⟨1000000, false, 0⟩
      (List.replicate MAX_CONSECUTIVE_INVALID 1010000) = 1 := by
  have h := baseline_recovery_amended 1000000 1010000 1010000
    ⟨1000000, false, 0⟩ rfl rfl rfl
    (by norm_num [RAW_VALUE_MIN]) (by norm_num [RAW_VALUE_MAX])
    (by
      norm_num [sampleVariation, MAX_CHANGE_PER_SAMPLE,
        MAX_PRESSURE_CHANGE_PER_SECOND, SENSOR_SAMPLE_RATE_HZ])
    (by norm_num [RAW_VALUE_MIN]) (by norm_num [RAW_VALUE_MAX])
    (by
      norm_num [sampleVariation, MAX_CHANGE_PER_SAMPLE,
        MAX_PRESSURE_CHANGE_PER_SECOND, SENSOR_SAMPLE_RATE_HZ])
  exact ⟨h.2.1, h.2.2.1⟩

-- ===================================================================
-- C3: derivative computation is total and guarded
-- ===================================================================

theorem getD_drop_eq (L : List (ℚ × ℕ)) (n i : ℕ) (d : ℚ × ℕ) :
    (L.drop n).getD i d = L.getD (n + i) d := by
  simp [List.getD_eq_getElem?_getD, List.getElem?_drop]

/-- Circular-buffer correspondence: after pushing the list `L` onto the
empty window, the write index is `|L| mod 50`, the count is
`min |L| 50`, and the cell that is `k` steps behind the write index holds
the `k`-th entry from the end of `L`. -/
theorem mkWindow_spec (L : List (ℚ × ℕ)) :
    (mkWindow L).writeIndex = L.length % DERIVATIVE_WINDOW_SIZE ∧
    (mkWindow L).count = min L.length DERIVATIVE_WINDOW_SIZE ∧
    (∀ k, k < min L.length DERIVATIVE_WINDOW_SIZE →
      (mkWindow L).values
          ((L.length % DERIVATIVE_WINDOW_SIZE + DERIVATIVE_WINDOW_SIZE - 1 - k) %
            DERIVATIVE_WINDOW_SIZE) =
        (L.getD (L.length - 1 - k) (0, 0)).1 ∧
      (mkWindow L).timestamps
          ((L.length % DERIVATIVE_WINDOW_SIZE + DERIVATIVE_WINDOW_SIZE - 1 - k) %
            DERIVATIVE_WINDOW_SIZE) =
        (L.getD (L.length - 1 - k) (0, 0)).2) := by
  simp only [DERIVATIVE_WINDOW_SIZE]
  induction L using List.reverseRecOn with
  | nil =>
      refine ⟨rfl, rfl, ?_⟩
      intro k hk
      simp at hk
  | append_singleton L e ih =>
      obtain ⟨hwi, hcount, hmem⟩ := ih
      have hfold : mkWindow (L ++ [e]) = addToDerivativeWindow (mkWindow L) e.1 e.2 := by
        simp [mkWindow, List.foldl_append]
      rw [hfold]
      simp only [List.length_append, List.length_singleton]
      refine ⟨?_, ?_, ?_⟩
      · simp only [addToDerivativeWindow, DERIVATIVE_WINDOW_SIZE, hwi]
        omega
      · simp only [addToDerivativeWindow, DERIVATIVE_WINDOW_SIZE, hcount]
        split_ifs with h <;> omega
      · intro k hk
        simp only [addToDerivativeWindow, DERIVATIVE_WINDOW_SIZE, hwi]
        rcases Nat.eq_zero_or_pos k with hk0 | hk1
        · subst hk0
          have hidx : ((L.length + 1) % 50 + 50 - 1 - 0) % 50 = L.length % 50 := by
            omega
          have hgd : (L ++ [e]).getD (L.length + 1 - 1 - 0) (0, 0) = e := by
            have h1 : L.length + 1 - 1 - 0 = L.length := by omega
            rw [h1]
            simp [List.getD_eq_getElem?_getD,
              List.getElem?_append_right (Nat.le_refl L.length)]
          rw [hidx, hgd]
          exact ⟨Function.update_same _ _ _, Function.update_same _ _ _⟩
        · have hne : ((L.length + 1) % 50 + 50 - 1 - k) % 50 ≠ L.length % 50 := by
            omega
          have hidx : ((L.length + 1) % 50 + 50 - 1 - k) % 50 =
              (L.length % 50 + 50 - 1 - (k - 1)) % 50 := by
            omega
          have hgd : (L ++ [e]).getD (L.length + 1 - 1 - k) (0, 0) =
              L.getD (L.length - 1 - (k - 1)) (0, 0) := by
            have h1 : L.length + 1 - 1 - k = L.length - k := by omega
            have h2 : L.length - 1 - (k - 1) = L.length - k := by omega
            rw [h1, h2]
            simp [List.getD_eq_getElem?_getD,
              List.getElem?_append_left (show L.length - k < L.length by omega)]
          have hprev := hmem (k - 1) (by omega)
          rw [hgd, ← hprev.1, ← hprev.2]
          rw [Function.update_noteq hne, Function.update_noteq hne]
          rw [hidx]
          exact ⟨rfl, rfl⟩

/-- C3: the computed raw derivative is zero whenever the window holds
fewer than 2 entries or the oldest and newest held entries carry the same
timestamp; otherwise — given non-decreasing timestamps inside the uint64
range — it equals (newest value - oldest value) divided by the elapsed
time in seconds between the oldest and newest entries currently held
(the last `min |L| 50` pushes), so the division never divides by zero. -/
theorem derivative_total_guarded (L : List (ℚ × ℕ)) :
    (min L.length DERIVATIVE_WINDOW_SIZE < 2 →
      calculateDerivative (mkWindow L) = 0) ∧
    (2 ≤ min L.length DERIVATIVE_WINDOW_SIZE →
      (((L.drop (L.length - min L.length DERIVATIVE_WINDOW_SIZE)).getD 0 (0, 0)).2 =
          ((L.drop (L.length - min L.length DERIVATIVE_WINDOW_SIZE)).getD
            (min L.length DERIVATIVE_WINDOW_SIZE - 1) (0, 0)).2 →
        calculateDerivative (mkWindow L) = 0) ∧
      (((L.drop (L.length - min L.length DERIVATIVE_WINDOW_SIZE)).getD 0 (0, 0)).2 <
          ((L.drop (L.length - min L.length DERIVATIVE_WINDOW_SIZE)).getD
            (min L.length DERIVATIVE_WINDOW_SIZE - 1) (0, 0)).2 →
        ((L.drop (L.length - min L.length DERIVATIVE_WINDOW_SIZE)).getD
            (min L.length DERIVATIVE_WINDOW_SIZE - 1) (0, 0)).2 < 2 ^ 64 →
        calculateDerivative (mkWindow L) =
          (((L.drop (L.length - min L.length DERIVATIVE_WINDOW_SIZE)).getD
              (min L.length DERIVATIVE_WINDOW_SIZE - 1) (0, 0)).1 -
            ((L.drop (L.length - min L.length DERIVATIVE_WINDOW_SIZE)).getD 0 (0, 0)).1) /
          (((((L.drop (L.length - min L.length DERIVATIVE_WINDOW_SIZE)).getD
              (min L.length DERIVATIVE_WINDOW_SIZE - 1) (0, 0)).2 -
            ((L.drop (L.length - min L.length DERIVATIVE_WINDOW_SIZE)).getD 0 (0, 0)).2 :
              ℕ) : ℚ) / 1000))) := by
  obtain ⟨hwi, hcount, hmem⟩ := mkWindow_spec L
  have hdrop0 : (L.drop (L.length - min L.length DERIVATIVE_WINDOW_SIZE)).getD 0 (0, 0) =
      L.getD (L.length - min L.length DERIVATIVE_WINDOW_SIZE) (0, 0) := by
    rw [getD_drop_eq]
    norm_num
  have hdropn : (L.drop (L.length - min L.length DERIVATIVE_WINDOW_SIZE)).getD
      (min L.length DERIVATIVE_WINDOW_SIZE - 1) (0, 0) = L.getD (L.length - 1) (0, 0) := by
    rw [getD_drop_eq]
    by_cases hL : L.length = 0
    · simp [hL]
    · congr 1
      simp only [DERIVATIVE_WINDOW_SIZE]
      omega
  constructor
  · intro h
    unfold calculateDerivative
    rw [hcount, if_pos h]
  · intro h2
    have hnlt : ¬ (mkWindow L).count < 2 := by rw [hcount]; omega
    have hoidx : ((mkWindow L).writeIndex + DERIVATIVE_WINDOW_SIZE -
        (mkWindow L).count) % DERIVATIVE_WINDOW_SIZE =
        (L.length % DERIVATIVE_WINDOW_SIZE + DERIVATIVE_WINDOW_SIZE - 1 -
          (min L.length DERIVATIVE_WINDOW_SIZE - 1)) % DERIVATIVE_WINDOW_SIZE := by
      rw [hwi, hcount]
      simp only [DERIVATIVE_WINDOW_SIZE] at *
      omega
    have hnidx : ((mkWindow L).writeIndex + DERIVATIVE_WINDOW_SIZE - 1) %
        DERIVATIVE_WINDOW_SIZE =
        (L.length % DERIVATIVE_WINDOW_SIZE + DERIVATIVE_WINDOW_SIZE - 1 - 0) %
          DERIVATIVE_WINDOW_SIZE := by
      rw [hwi]
      norm_num
    have hold := hmem (min L.length DERIVATIVE_WINDOW_SIZE - 1)
      (by simp only [DERIVATIVE_WINDOW_SIZE] at *; omega)
    have hnew := hmem 0 (by simp only [DERIVATIVE_WINDOW_SIZE] at *; omega)
    have holdidx : L.length - 1 - (min L.length DERIVATIVE_WINDOW_SIZE - 1) =
        L.length - min L.length DERIVATIVE_WINDOW_SIZE := by
      simp only [DERIVATIVE_WINDOW_SIZE] at *
      omega
    have hnewidx : L.length - 1 - 0 = L.length - 1 := by omega
    rw [holdidx] at hold
    rw [hnewidx] at hnew
    constructor
    · intro heq
      unfold calculateDerivative
      rw [if_neg hnlt]
      dsimp only
      rw [hoidx, hnidx, hold.2, hnew.2]
      rw [hdrop0, hdropn] at heq
      rw [← heq, uSub64_self]
      simp
    · intro hlt hb
      rw [hdrop0] at hlt ⊢
      rw [hdropn] at hlt hb ⊢
      unfold calculateDerivative
      rw [if_neg hnlt]
      dsimp only
      rw [hoidx, hnidx, hold.1, hnew.1, hold.2, hnew.2]
      have hu : uSub64 (L.getD (L.length - 1) (0, 0)).2
          (L.getD (L.length - min L.length DERIVATIVE_WINDOW_SIZE) (0, 0)).2 =
          (L.getD (L.length - 1) (0, 0)).2 -
            (L.getD (L.length - min L.length DERIVATIVE_WINDOW_SIZE) (0, 0)).2 :=
        uSub64_eq_sub _ _ (le_of_lt hlt) hb
      rw [hu, if_neg (by omega)]
      rw [div_div_eq_mul_div]

/-- Witness for C3: a three-entry window with distinct timestamps. -/
theorem derivative_total_guarded_witness :
    calculateDerivative (mkWindow [(10, 0), (16, 100), (22, 200)]) =
      ((22 : ℚ) - 10) / ((200 : ℚ) / 1000) := by
  have h := (derivative_total_guarded [(10, 0), (16, 100), (22, 200)]).2
    (by norm_num [DERIVATIVE_WINDOW_SIZE])
  have h2 := h.2 (by norm_num [DERIVATIVE_WINDOW_SIZE])
    (by norm_num [DERIVATIVE_WINDOW_SIZE])
  simpa [DERIVATIVE_WINDOW_SIZE] using h2

-- ===================================================================
-- C4: CHANGING-event classification at finalize
-- ===================================================================

/-- C4 counterexample: running the processor on `classificationTrace`
finalizes a changing event holding exactly one stored sample with
derivative 1500 and equal start/end value. Its stored-samples average is
1500, which is not below the small fraction of the threshold, and the net
value change is zero, so the claim prescribes OSCILLATION — but the code
averages only when more than one sample is stored, uses 0 otherwise, and
classifies the event STABLE. -/
theorem classification_counterexample :
    ((runTelemetry initTelemetryState classificationTrace).2.length = 2) ∧
    (((runTelemetry initTelemetryState classificationTrace).2.getD 1
        emptyPressureEvent).type = EventType.stable) ∧
    (((runTelemetry initTelemetryState classificationTrace).2.getD 1
        emptyPressureEvent).sampleCount = 1) ∧
    ((((runTelemetry initTelemetryState classificationTrace).2.getD 1
        emptyPressureEvent).samples 0).derivative = 1500) ∧
    (((runTelemetry initTelemetryState classificationTrace).2.getD 1
        emptyPressureEvent).startValue =
      ((runTelemetry initTelemetryState classificationTrace).2.getD 1
        emptyPressureEvent).endValue) ∧
    ¬ |(1500 : ℚ)| < DERIVATIVE_THRESHOLD * (3 / 10) := by
  with_unfolding_all decide

/-- C4 amended: at finalize, the average derivative is taken over the
stored samples only when the event carries detailed samples and more than
one sample; otherwise zero is used in its place (so one-sample events
always classify STABLE). With that average: magnitude below
`0.3 × DERIVATIVE_THRESHOLD` classifies STABLE; otherwise RISING when the
net value change and the average are both positive, FALLING when both are
negative, and OSCILLATION in every other case. -/
theorem classification_amended (e : PressureEvent) (hne : e.sampleCount ≠ 0) :
    ∃ e2, finalizeChangingEvent e = [e2] ∧
      (∀ avg : ℚ,
        avg = (if e.hasDetailedSamples = true ∧ 1 < e.sampleCount then
          (((List.range (min e.sampleCount MAX_SAMPLES_PER_EVENT)).map
            (fun i => (e.samples i).derivative)).sum) /
            ((min e.sampleCount MAX_SAMPLES_PER_EVENT : ℕ) : ℚ)
          else 0) →
        (|avg| < DERIVATIVE_THRESHOLD * (3 / 10) → e2.type = EventType.stable) ∧
        (¬ |avg| < DERIVATIVE_THRESHOLD * (3 / 10) →
          0 < ((toInt32 e.endValue - toInt32 e.startValue : ℤ) : ℚ) → 0 < avg →
          e2.type = EventType.rising) ∧
        (¬ |avg| < DERIVATIVE_THRESHOLD * (3 / 10) →
          ((toInt32 e.endValue - toInt32 e.startValue : ℤ) : ℚ) < 0 → avg < 0 →
          e2.type = EventType.falling) ∧
        (¬ |avg| < DERIVATIVE_THRESHOLD * (3 / 10) →
          ¬ (0 < ((toInt32 e.endValue - toInt32 e.startValue : ℤ) : ℚ) ∧ 0 < avg) →
          ¬ (((toInt32 e.endValue - toInt32 e.startValue : ℤ) : ℚ) < 0 ∧ avg < 0) →
          e2.type = EventType.oscillation)) := by
  unfold finalizeChangingEvent
  rw [if_neg hne]
  dsimp only
  refine ⟨_, rfl, ?_⟩
  intro avg havg
  subst havg
  dsimp only
  unfold classifyEvent
  refine ⟨fun h1 => ?_, fun h1 h2 h3 => ?_, fun h1 h2 h3 => ?_,
    fun h1 h2 h3 => ?_⟩
  · simp only [if_pos h1]
  · simp only [if_neg h1, if_pos (And.intro h2 h3)]
  · simp only [if_neg h1]
    rw [if_neg (by
      rintro ⟨ha, hb⟩
      exact absurd hb (not_lt.mpr (le_of_lt h3)))]
    simp only [if_pos (And.intro h2 h3)]
  · simp only [if_neg h1, if_neg h2, if_neg h3]

/-- Witness for C4 at a concrete two-sample rising event. -/
theorem classification_amended_witness :
    ∃ e2, finalizeChangingEvent { emptyPressureEvent with
        startTimestamp := 10, endTimestamp := 30, startValue := 1000,
        endValue := 2000, sampleCount := 2, hasDetailedSamples := true,
        samples := fun _ => ⟨10, 1000, 1500⟩ } = [e2] ∧
      e2.type = EventType.rising := by
  obtain ⟨e2, hfin, hcls⟩ := classification_amended { emptyPressureEvent with
    startTimestamp := 10, endTimestamp := 30, startValue := 1000,
    endValue := 2000, sampleCount := 2, hasDetailedSamples := true,
    samples := fun _ => ⟨10, 1000, 1500⟩ } (by norm_num)
  refine ⟨e2, hfin, ?_⟩
  have h := (hcls _ rfl).2.1
  apply h
  · rw [show (if (true = true ∧ (1 : ℕ) < 2) then
        ((((List.range (min 2 MAX_SAMPLES_PER_EVENT)).map
          (fun _ => (1500 : ℚ))).sum) /
          ((min 2 MAX_SAMPLES_PER_EVENT : ℕ) : ℚ)) else 0) = (1500 : ℚ) from by
      norm_num [MAX_SAMPLES_PER_EVENT, List.range_succ]]
    rw [abs_of_pos (by norm_num : (0 : ℚ) < 1500)]
    norm_num [DERIVATIVE_THRESHOLD, DERIVATIVE_THRESHOLD_PER_SEC,
      SENSOR_SAMPLE_RATE_HZ]
  · norm_num [toInt32]
  · rw [show (if (true = true ∧ (1 : ℕ) < 2) then
        ((((List.range (min 2 MAX_SAMPLES_PER_EVENT)).map
          (fun _ => (1500 : ℚ))).sum) /
          ((min 2 MAX_SAMPLES_PER_EVENT : ℕ) : ℚ)) else 0) = (1500 : ℚ) from by
      norm_num [MAX_SAMPLES_PER_EVENT, List.range_succ]]
    norm_num

-- ===================================================================
-- C10: trigger-reason invariant of emitted events
-- ===================================================================

/-- C10 counterexample: the processor run on `triggerTrace` enqueues an
event whose `type` is `EVENT_TYPE_STABLE` (a changing period whose
computed average derivative fell below the small fraction of the
threshold) but whose trigger reason is `DERIVATIVE_RISING`, not
`TIMEOUT` — so not every enqueued STABLE-typed event carries the TIMEOUT
trigger. -/
theorem trigger_reason_counterexample :
    ((runTelemetry initTelemetryState triggerTrace).2.length = 2) ∧
    (((runTelemetry initTelemetryState triggerTrace).2.getD 1
        emptyPressureEvent).type = EventType.stable) ∧
    (((runTelemetry initTelemetryState triggerTrace).2.getD 1
        emptyPressureEvent).triggerReason = TriggerReason.derivativeRising) := by
  with_unfolding_all decide

theorem finalizeStablePeriod_mem (acc : StableAccumulator) (ts : ℕ)
    (e : PressureEvent) (he : e ∈ finalizeStablePeriod acc ts) :
    e.hasDetailedSamples = false ∧ e.triggerReason = TriggerReason.timeout ∧
      e.type = EventType.stable := by
  unfold finalizeStablePeriod at he
  by_cases h : acc.sampleCount = 0
  · rw [if_pos h] at he
    simp at he
  · rw [if_neg h] at he
    dsimp only at he
    rw [List.mem_singleton] at he
    subst he
    exact ⟨rfl, rfl, rfl⟩

theorem finalizeChangingEvent_mem (ev : PressureEvent) (e : PressureEvent)
    (he : e ∈ finalizeChangingEvent ev) :
    e.triggerReason = ev.triggerReason ∧
      e.hasDetailedSamples = ev.hasDetailedSamples := by
  unfold finalizeChangingEvent at he
  by_cases h : ev.sampleCount = 0
  · rw [if_pos h] at he
    simp at he
  · rw [if_neg h] at he
    dsimp only at he
    rw [List.mem_singleton] at he
    subst he
    exact ⟨rfl, rfl⟩

theorem processChangingPeriod_trigger_init (ev : PressureEvent) (v ts : ℕ)
    (d : ℚ) (h : ev.sampleCount = 0) :
    (processChangingPeriod ev v ts d).1.triggerReason =
      (if 0 < d then TriggerReason.derivativeRising
        else TriggerReason.derivativeFalling) ∧
    (processChangingPeriod ev v ts d).1.hasDetailedSamples = true := by
  unfold processChangingPeriod
  rw [if_pos h]
  dsimp only
  split
  · exact ⟨rfl, rfl⟩
  · exact ⟨rfl, rfl⟩

theorem processChangingPeriod_trigger_keep (ev : PressureEvent) (v ts : ℕ)
    (d : ℚ) (h : ev.sampleCount ≠ 0) :
    (processChangingPeriod ev v ts d).1.triggerReason = ev.triggerReason ∧
    (processChangingPeriod ev v ts d).1.hasDetailedSamples =
      ev.hasDetailedSamples := by
  unfold processChangingPeriod
  rw [if_neg h]
  dsimp only
  split
  · exact ⟨rfl, rfl⟩
  · exact ⟨rfl, rfl⟩

theorem runTelemetry_acc (rs : List PressureReading) (st : TelemetryState)
    (acc : List PressureEvent) :
    rs.foldl (fun p r =>
      let q := processSample p.1 r
      (q.1, p.2 ++ q.2)) (st, acc) =
    ((runTelemetry st rs).1, acc ++ (runTelemetry st rs).2) := by
  induction rs generalizing st acc with
  | nil => simp [runTelemetry]
  | cons r rs ih =>
      simp only [runTelemetry, List.foldl_cons, List.nil_append]
      rw [ih ((processSample st r).1) (acc ++ (processSample st r).2),
        ih ((processSample st r).1) ((processSample st r).2)]
      simp

theorem runTelemetry_cons (st : TelemetryState) (r : PressureReading)
    (rs : List PressureReading) :
    runTelemetry st (r :: rs) =
      ((runTelemetry (processSample st r).1 rs).1,
        (processSample st r).2 ++
          (runTelemetry (processSample st r).1 rs).2) := by
  simp only [runTelemetry, List.foldl_cons, List.nil_append]
  rw [runTelemetry_acc rs ((processSample st r).1) ((processSample st r).2)]
  rfl

/-- Invariant carried by the processor state: while a changing event is in
progress, it has detailed samples and a derivative-sign trigger reason. -/
theorem processSample_invariant (st : TelemetryState) (r : PressureReading)
    (hInv : st.eventInProgress = true →
      st.currentEvent.hasDetailedSamples = true ∧
        (st.currentEvent.triggerReason = TriggerReason.derivativeRising ∨
          st.currentEvent.triggerReason = TriggerReason.derivativeFalling)) :
    ((processSample st r).1.eventInProgress = true →
      (processSample st r).1.currentEvent.hasDetailedSamples = true ∧
        ((processSample st r).1.currentEvent.triggerReason =
            TriggerReason.derivativeRising ∨
          (processSample st r).1.currentEvent.triggerReason =
            TriggerReason.derivativeFalling)) ∧
    (∀ e ∈ (processSample st r).2,
      (e.hasDetailedSamples = false ∧ e.triggerReason = TriggerReason.timeout ∧
        e.type = EventType.stable) ∨
      (e.hasDetailedSamples = true ∧
        (e.triggerReason = TriggerReason.derivativeRising ∨
          e.triggerReason = TriggerReason.derivativeFalling))) := by
  unfold processSample
  by_cases hv : r.isValid = false
  · rw [if_pos hv]
    exact ⟨hInv, by simp⟩
  · rw [if_neg hv]
    by_cases hi : st.filtersInitialized = false
    · rw [if_pos hi]
      exact ⟨hInv, by simp⟩
    · rw [if_neg hi]
      dsimp only
      split
      · -- the machine is in (or returned to) the STABLE state
        split <;> rename_i hA <;> split <;> rename_i hB <;> constructor <;>
          first
            | (intro h
               dsimp only at h
               exact Bool.noConfusion h)
            | (intro h
               dsimp only at h
               exact hInv h)
            | (intro e he
               simp only [List.mem_append] at he
               rcases he with he | he <;>
                 first
                   | (simp at he)
                   | (left
                      exact finalizeStablePeriod_mem _ _ _ he)
                   | (right
                      have h2 := finalizeChangingEvent_mem _ _ he
                      have h3 := hInv (by first | exact hA.2 | exact hB.2)
                      exact ⟨h2.2.trans h3.1, by rw [h2.1]; exact h3.2⟩))
      · -- the machine is in the CHANGING state
        have hq : ∀ (ev0 : PressureEvent),
            (ev0.sampleCount ≠ 0 →
              ev0.hasDetailedSamples = true ∧
                (ev0.triggerReason = TriggerReason.derivativeRising ∨
                  ev0.triggerReason = TriggerReason.derivativeFalling)) →
            ∀ (fv : ℕ) (d : ℚ),
            (processChangingPeriod ev0 fv r.timestamp d).1.hasDetailedSamples =
              true ∧
            ((processChangingPeriod ev0 fv r.timestamp d).1.triggerReason =
                TriggerReason.derivativeRising ∨
              (processChangingPeriod ev0 fv r.timestamp d).1.triggerReason =
                TriggerReason.derivativeFalling) := by
          intro ev0 hev0 fv d
          by_cases hz : ev0.sampleCount = 0
          · have h0 := processChangingPeriod_trigger_init ev0 fv r.timestamp d hz
            refine ⟨h0.2, ?_⟩
            rw [h0.1]
            by_cases hd : 0 < d
            · rw [if_pos hd]
              exact Or.inl rfl
            · rw [if_neg hd]
              exact Or.inr rfl
          · have h0 := processChangingPeriod_trigger_keep ev0 fv r.timestamp d hz
            have h3 := hev0 hz
            refine ⟨h0.2.trans h3.1, ?_⟩
            rw [h0.1]
            exact h3.2
        by_cases hp : st.eventInProgress = false
        · rw [if_pos hp]
          have hq3 := hq emptyPressureEvent (fun h => absurd rfl h)
          split <;> rename_i hA <;> split <;> rename_i hB <;> constructor <;>
            first
              | (intro h
                 dsimp only at h
                 exact Bool.noConfusion h)
              | (intro _
                 exact hq3 _ _)
              | (intro e he
                 simp only [List.mem_append] at he
                 rcases he with he | he <;>
                   first
                     | (simp at he)
                     | (left
                        exact finalizeStablePeriod_mem _ _ _ he)
                     | (right
                        have h2 := finalizeChangingEvent_mem _ _ he
                        exact ⟨h2.2.trans (hq3 _ _).1,
                          by rw [h2.1]; exact (hq3 _ _).2⟩))
        · rw [if_neg hp]
          have hp2 : st.eventInProgress = true := by
            cases hb : st.eventInProgress
            · exact absurd hb hp
            · rfl
          have hq3 := hq st.currentEvent (fun _ => hInv hp2)
          split <;> rename_i hA <;> split <;> rename_i hB <;> constructor <;>
            first
              | (intro h
                 dsimp only at h
                 exact Bool.noConfusion h)
              | (intro _
                 exact hq3 _ _)
              | (intro e he
                 simp only [List.mem_append] at he
                 rcases he with he | he <;>
                   first
                     | (simp at he)
                     | (left
                        exact finalizeStablePeriod_mem _ _ _ he)
                     | (right
                        have h2 := finalizeChangingEvent_mem _ _ he
                        exact ⟨h2.2.trans (hq3 _ _).1,
                          by rw [h2.1]; exact (hq3 _ _).2⟩))

/-- C10 amended: every event the processor hands to its outbound queue is
either a stable-period event (no detailed samples, trigger TIMEOUT, type
STABLE) or a changing-period event (detailed samples, trigger
DERIVATIVE_RISING or DERIVATIVE_FALLING, chosen by the sign of the
smoothed derivative at the event's first sample and never overwritten at
finalize — in particular TIMEOUT and BUFFER_FULL are never attached to a
changing-period event even when it is finalized by capacity or timeout).
A changing-period event classified `EVENT_TYPE_STABLE` keeps its
derivative trigger, so the type field alone does not determine the
trigger. -/
theorem trigger_reason_amended :
    (∀ rs : List PressureReading, ∀ e ∈ (runTelemetry initTelemetryState rs).2,
      (e.hasDetailedSamples = false ∧ e.triggerReason = TriggerReason.timeout ∧
        e.type = EventType.stable) ∨
      (e.hasDetailedSamples = true ∧
        (e.triggerReason = TriggerReason.derivativeRising ∨
          e.triggerReason = TriggerReason.derivativeFalling))) ∧
    (∀ (ev : PressureEvent) (v ts : ℕ) (d : ℚ), ev.sampleCount = 0 →
      (processChangingPeriod ev v ts d).1.triggerReason =
        (if 0 < d then TriggerReason.derivativeRising
          else TriggerReason.derivativeFalling)) ∧
    (∀ (ev : PressureEvent) (v ts : ℕ) (d : ℚ), ev.sampleCount ≠ 0 →
      (processChangingPeriod ev v ts d).1.triggerReason = ev.triggerReason) ∧
    (∀ (ev e : PressureEvent), e ∈ finalizeChangingEvent ev →
      e.triggerReason = ev.triggerReason) := by
  refine ⟨?_, fun ev v ts d h => (processChangingPeriod_trigger_init ev v ts d h).1,
    fun ev v ts d h => (processChangingPeriod_trigger_keep ev v ts d h).1,
    fun ev e he => (finalizeChangingEvent_mem ev e he).1⟩
  have hgen : ∀ (rs : List PressureReading) (st : TelemetryState),
      (st.eventInProgress = true →
        st.currentEvent.hasDetailedSamples = true ∧
          (st.currentEvent.triggerReason = TriggerReason.derivativeRising ∨
            st.currentEvent.triggerReason = TriggerReason.derivativeFalling)) →
      ∀ e ∈ (runTelemetry st rs).2,
        (e.hasDetailedSamples = false ∧ e.triggerReason = TriggerReason.timeout ∧
          e.type = EventType.stable) ∨
        (e.hasDetailedSamples = true ∧
          (e.triggerReason = TriggerReason.derivativeRising ∨
            e.triggerReason = TriggerReason.derivativeFalling)) := by
    intro rs
    induction rs with
    | nil =>
        intro st _ e he
        simp [runTelemetry] at he
    | cons r rs ih =>
        intro st hInv e he
        rw [runTelemetry_cons] at he
        dsimp only at he
        rw [List.mem_append] at he
        have hstep := processSample_invariant st r hInv
        rcases he with he | he
        · exact hstep.2 e he
        · exact ih ((processSample st r).1) hstep.1 e he
  intro rs
  exact hgen rs initTelemetryState (by intro h; simp [initTelemetryState] at h)

/-- Witness for C10 at a concrete event and first sample. -/
theorem trigger_reason_amended_witness :
    (processChangingPeriod emptyPressureEvent 1000 20 1500).1.triggerReason =
      TriggerReason.derivativeRising := by
  have h := trigger_reason_amended.2.1 emptyPressureEvent 1000 20 1500 rfl
  rw [h]
  norm_num

-- ===================================================================
-- C5: Pressure-Event invariant (capacity violation for stable events)
-- ===================================================================

/-- C5 code-bug evaluation: feeding the processor valid constant samples
(`capacityTrace`) produces a single STABLE event whose `sampleCount` is
102, exceeding the detailed-sample capacity `MAX_SAMPLES_PER_EVENT = 100`
— and the repository's own `validatePressureEvent` rejects exactly this
event. At a plain 100 Hz cadence the same finalize path yields
`sampleCount ≈ 201`, so the claimed invariant
`sampleCount ≤ capacity` is violated by the code for stable events. -/
theorem stable_event_capacity_violation :
    ((runTelemetry initTelemetryState capacityTrace).2.length = 1) ∧
    (((runTelemetry initTelemetryState capacityTrace).2.getD 0
        emptyPressureEvent).type = EventType.stable) ∧
    (((runTelemetry initTelemetryState capacityTrace).2.getD 0
        emptyPressureEvent).sampleCount = 102) ∧
    (MAX_SAMPLES_PER_EVENT <
      ((runTelemetry initTelemetryState capacityTrace).2.getD 0
        emptyPressureEvent).sampleCount) ∧
    (validatePressureEvent
      ((runTelemetry initTelemetryState capacityTrace).2.getD 0
        emptyPressureEvent) = false) := by
  with_unfolding_all decide

end PressureGateway
